import Mathlib

/-!
# Verification of the GCPprojects demand-sensing repository

Shallow embedding, in Lean 4, of the parts of the repository that the
specification's claims are about:

* `frontend/services/mock_data.py` — the `MockDataService` (scenario
  classifier, driver templates, boost calculations, forecast cache and
  approval updates);
* `demand_planner_agent/data_science/sub_agents/research/tools.py` —
  `fetch_and_insert_demand_data` (date validation and the warehouse
  insert), modelled as a trace-producing function over explicit inputs
  for the ambient state (today's date, environment variables, the random
  source row, insert errors);
* `frontend/services/api_client.py` — the `AgentEngineClient` credential
  gates and the newline-delimited response-stream parsers of
  `query_stream` / `query_rich` / the async `query`.

Python floats are embedded as `ℚ` with Python's banker's rounding
(`round`) made explicit; Python `datetime.date` is embedded as a
year/month/day triple with the proleptic-Gregorian ordinal used for
comparison and weekday computation, matching CPython's `date` semantics.
-/

namespace GCP

/-! ## Python `datetime.date` -/

/-- A Python `datetime.date`: year/month/day as written.  Only dates that
`parseIsoDate` or the mock service construct are used at valid calendar
values. -/
structure PyDate where
  year : Nat
  month : Nat
  day : Nat
deriving DecidableEq, Repr

/-- Gregorian leap-year test, as in CPython's `calendar.isleap`. -/
def isLeapYear (y : Nat) : Bool :=
  (y % 4 == 0 && y % 100 != 0) || y % 400 == 0

/-- Days in a month of a given year. -/
def daysInMonth (y m : Nat) : Nat :=
  if m = 2 then (if isLeapYear y then 29 else 28)
  else if m = 4 ∨ m = 6 ∨ m = 9 ∨ m = 11 then 30
  else 31

/-- Days in the months strictly before month `m` of year `y`. -/
def daysBeforeMonth (y m : Nat) : Nat :=
  (List.range (m - 1)).foldl (fun acc i => acc + daysInMonth y (i + 1)) 0

/-- Proleptic-Gregorian ordinal of a date, as CPython's
`date.toordinal`: day 1 is 0001-01-01. -/
def PyDate.toOrdinal (d : PyDate) : Nat :=
  365 * (d.year - 1) + (d.year - 1) / 4 - (d.year - 1) / 100 + (d.year - 1) / 400
    + daysBeforeMonth d.year d.month + d.day

/-- CPython's `date.weekday()`: Monday = 0 … Sunday = 6.
0001-01-01 (ordinal 1) was a Monday. -/
def PyDate.weekday (d : PyDate) : Nat :=
  (d.toOrdinal + 6) % 7

/-- Python `date` comparison (dates compare by their ordinal). -/
def PyDate.ltb (a b : PyDate) : Bool :=
  a.toOrdinal < b.toOrdinal

/-- Zero-pad the decimal rendering of `n` to width `w`. -/
def padNum (w n : Nat) : String :=
  let s := toString n
  String.mk (List.replicate (w - s.length) '0') ++ s

/-- `date.strftime("%Y-%m-%d")` / `date.isoformat()`. -/
def PyDate.isoformat (d : PyDate) : String :=
  padNum 4 d.year ++ "-" ++ padNum 2 d.month ++ "-" ++ padNum 2 d.day

/-- Value of a decimal digit character. -/
def digitVal (c : Char) : Nat := c.toNat - 48

/-- Whether the first list is a prefix of the second. -/
def listPrefixEq : List Char → List Char → Bool
  | [], _ => true
  | _ :: _, [] => false
  | x :: xs, y :: ys => x = y && listPrefixEq xs ys

/-- Python `s.startswith(pre)`. -/
def strStartsWith (s pre : String) : Bool :=
  listPrefixEq pre.toList s.toList

/-- Python `s.endswith(suf)`. -/
def strEndsWith (s suf : String) : Bool :=
  listPrefixEq suf.toList.reverse s.toList.reverse

/-- Whether the character list `pat` occurs inside `hay`. -/
def containsSub : List Char → List Char → Bool
  | [], pat => pat.isEmpty
  | x :: rest, pat => listPrefixEq pat (x :: rest) || containsSub rest pat

/-- `datetime.date.fromisoformat` on the documented `YYYY-MM-DD` format:
ten characters, four year digits, dashes in positions 5 and 8, and a
valid calendar date with year ≥ 1 (CPython's `MINYEAR`).  Any other
string raises `ValueError`, embedded as `none`. -/
def parseIsoDate (s : String) : Option PyDate :=
  match s.toList with
  | [y1, y2, y3, y4, h1, m1, m2, h2, d1, d2] =>
    if y1.isDigit && y2.isDigit && y3.isDigit && y4.isDigit
        && h1 == '-' && m1.isDigit && m2.isDigit
        && h2 == '-' && d1.isDigit && d2.isDigit then
      let y := 1000 * digitVal y1 + 100 * digitVal y2 + 10 * digitVal y3 + digitVal y4
      let m := 10 * digitVal m1 + digitVal m2
      let d := 10 * digitVal d1 + digitVal d2
      if 1 ≤ y ∧ 1 ≤ m ∧ m ≤ 12 ∧ 1 ≤ d ∧ d ≤ daysInMonth y m then
        some ⟨y, m, d⟩
      else none
    else none
  | _ => none

/-! ## Python `round` (banker's rounding) on `ℚ` -/

/-- Python's built-in `round(x)`: round half to even. -/
def pyRoundInt (q : ℚ) : ℤ :=
  if q - ⌊q⌋ = 1 / 2 then (if 2 ∣ ⌊q⌋ then ⌊q⌋ else ⌊q⌋ + 1) else round q

/-- Python's `round(x, n)` for `n ≥ 0` digits. -/
def pyRound (n : Nat) (q : ℚ) : ℚ :=
  (pyRoundInt (q * 10 ^ n) : ℚ) / 10 ^ n

/-! ## `frontend/services/mock_data.py` — MockDataService

The driver dictionary always holds exactly the 29 keys of
`DRIVER_TEMPLATES["base"]` (the "bullish"/"bearish" templates override
subsets of them), so it is embedded as a record with one field per key. -/

/-- The 29 demand-driver values of `MockDataService.DRIVER_TEMPLATES`. -/
structure Drivers where
  statistical_baseline_forecast : ℚ
  ingredient_trend_velocity : ℚ
  brand_sentiment_score : ℚ
  viral_hashtag_volume : ℚ
  influencer_mention_count : ℚ
  performance_marketing_spend : ℚ
  campaign_ctr : ℚ
  video_completion_rate : ℚ
  retargeting_pool_size : ℚ
  on_platform_discount_depth : ℚ
  bundle_offer_active_status : Bool
  flash_sale_participation : Bool
  cart_level_offer_conversion : ℚ
  share_of_search_keyword_rank : ℚ
  pdp_views : ℚ
  buy_box_win_rate : ℚ
  rating_and_review_velocity : ℚ
  max_temperature_forecast : ℚ
  humidity_index : ℚ
  uv_index : ℚ
  air_quality_index : ℚ
  competitor_price_gap : ℚ
  competitor_out_of_stock_status : Bool
  competitor_promo_intensity : ℚ
  competitor_new_launch_signal : Bool
  real_time_sales_velocity : ℚ
  inventory_days_on_hand : ℚ
  distributor_open_orders : ℚ
  stock_out_incidents : ℚ

/-- `DRIVER_TEMPLATES["base"]`. -/
def baseTemplate : Drivers where
  statistical_baseline_forecast := 90
  ingredient_trend_velocity := 0.15
  brand_sentiment_score := 72
  viral_hashtag_volume := 1400
  influencer_mention_count := 24
  performance_marketing_spend := 200000
  campaign_ctr := 0.020
  video_completion_rate := 0.33
  retargeting_pool_size := 17000
  on_platform_discount_depth := 0.10
  bundle_offer_active_status := false
  flash_sale_participation := false
  cart_level_offer_conversion := 0.06
  share_of_search_keyword_rank := 5
  pdp_views := 48000
  buy_box_win_rate := 0.95
  rating_and_review_velocity := 35
  max_temperature_forecast := 27.0
  humidity_index := 0.60
  uv_index := 5.5
  air_quality_index := 140
  competitor_price_gap := -10
  competitor_out_of_stock_status := false
  competitor_promo_intensity := 0.10
  competitor_new_launch_signal := false
  real_time_sales_velocity := 11.0
  inventory_days_on_hand := 7.0
  distributor_open_orders := 300
  stock_out_incidents := 0

/-- `drivers.update(DRIVER_TEMPLATES["bullish"])`. -/
def applyBullish (d : Drivers) : Drivers :=
  { d with
    ingredient_trend_velocity := 0.30
    brand_sentiment_score := 82
    viral_hashtag_volume := 2500
    influencer_mention_count := 40
    performance_marketing_spend := 280000
    campaign_ctr := 0.028
    on_platform_discount_depth := 0.20
    flash_sale_participation := true
    share_of_search_keyword_rank := 2
    pdp_views := 75000
    buy_box_win_rate := 0.98
    competitor_out_of_stock_status := true
    real_time_sales_velocity := 18.0 }

/-- `drivers.update(DRIVER_TEMPLATES["bearish"])`. -/
def applyBearish (d : Drivers) : Drivers :=
  { d with
    ingredient_trend_velocity := -0.10
    brand_sentiment_score := 48
    viral_hashtag_volume := 200
    influencer_mention_count := 2
    performance_marketing_spend := 20000
    campaign_ctr := 0.008
    on_platform_discount_depth := 0.00
    share_of_search_keyword_rank := 20
    pdp_views := 10000
    buy_box_win_rate := 0.70
    competitor_promo_intensity := 0.35
    competitor_new_launch_signal := true
    real_time_sales_velocity := 4.0 }

/-- `PRODUCTS[sku].get("base_demand", 85)`: the single catalogue entry is
`PONDS_SUPER_LIGHT_GEL_100G` with `base_demand = 92`. -/
def productBaseDemand (sku_id : String) : ℚ :=
  if sku_id = "PONDS_SUPER_LIGHT_GEL_100G" then 92 else 85

/-- `PRODUCTS[sku].get("weather_sensitivity", 0.5)`. -/
def productWeatherSensitivity (sku_id : String) : ℚ :=
  if sku_id = "PONDS_SUPER_LIGHT_GEL_100G" then 0.8 else 0.5

/-- The scenario chosen by `MockDataService.get_demand_drivers` from the
as-of date: every 3rd day of the month or weekends are "bullish", every
5th day is "bearish", otherwise "base". -/
def scenarioOf (as_of_date : PyDate) : String :=
  let day_of_week := as_of_date.weekday
  let day_of_month := as_of_date.day
  if day_of_month % 3 = 0 ∨ day_of_week = 5 ∨ day_of_week = 6 then "bullish"
  else if day_of_month % 5 = 0 then "bearish"
  else "base"

/-- `DemandDriverData` (the `notes` field, always empty here, is
omitted). -/
structure DemandDriverData where
  sku_id : String
  customer_id : String
  location_id : String
  as_of_date : String
  drivers : Drivers
  scenario : String

/-- `MockDataService.get_demand_drivers`. -/
def get_demand_drivers (sku_id customer_id location_id : String)
    (as_of_date : PyDate) : DemandDriverData :=
  let date_str := as_of_date.isoformat
  let scenario := scenarioOf as_of_date
  let drivers := baseTemplate
  let drivers := if scenario = "bullish" then applyBullish drivers
    else if scenario = "bearish" then applyBearish drivers else drivers
  let drivers := { drivers with
    statistical_baseline_forecast := productBaseDemand sku_id }
  let drivers := if customer_id = "ZEPTO" then
      { drivers with
        statistical_baseline_forecast := drivers.statistical_baseline_forecast * 0.95
        pdp_views := drivers.pdp_views * 0.85 }
    else drivers
  { sku_id := sku_id, customer_id := customer_id, location_id := location_id
    as_of_date := date_str, drivers := drivers
    scenario := scenario.toUpper }

/-- `MockDataService._calc_social_boost`. -/
def calc_social_boost (drivers : Drivers) : ℚ :=
  let trend := drivers.ingredient_trend_velocity
  let sentiment := drivers.brand_sentiment_score / 100
  let hashtags := min (drivers.viral_hashtag_volume / 3000) 1.0
  pyRound 3 (0.4 * trend + 0.3 * (sentiment - 0.7) + 0.3 * hashtags * 0.3)

/-- `MockDataService._calc_marketing_boost`. -/
def calc_marketing_boost (drivers : Drivers) : ℚ :=
  let spend := drivers.performance_marketing_spend
  let ctr := drivers.campaign_ctr
  let spend_factor := min (spend / 300000) 1.0 * 0.15
  let ctr_factor := ctr * 2
  pyRound 3 (spend_factor + ctr_factor)

/-- `MockDataService._calc_promo_boost`. -/
def calc_promo_boost (drivers : Drivers) : ℚ :=
  let discount := drivers.on_platform_discount_depth
  let bundle : ℚ := if drivers.bundle_offer_active_status then 0.05 else 0
  let flash : ℚ := if drivers.flash_sale_participation then 0.10 else 0
  pyRound 3 (discount * 0.8 + bundle + flash)

/-- `MockDataService._calc_shelf_boost`. -/
def calc_shelf_boost (drivers : Drivers) : ℚ :=
  let rank := drivers.share_of_search_keyword_rank
  let rank_factor := max 0 ((10 - rank) / 10) * 0.10
  let buy_box := drivers.buy_box_win_rate
  let bb_factor := (buy_box - 0.9) * 0.5
  pyRound 3 (rank_factor + bb_factor)

/-- `MockDataService._calc_weather_boost` (`"POND" in sku_id` is the
substring test). -/
def calc_weather_boost (drivers : Drivers) (sku_id : String) : ℚ :=
  let temp := drivers.max_temperature_forecast
  let uv := drivers.uv_index
  let sensitivity := productWeatherSensitivity sku_id
  if containsSub sku_id.toList "POND".toList then
    let temp_factor := max 0 ((temp - 25) / 10) * 0.15 * sensitivity
    let uv_factor := max 0 ((uv - 5) / 5) * 0.10 * sensitivity
    pyRound 3 (temp_factor + uv_factor)
  else 0.0

/-- `MockDataService._calc_competitor_boost`. -/
def calc_competitor_boost (drivers : Drivers) : ℚ :=
  let price_gap := drivers.competitor_price_gap
  let oos : ℚ := if drivers.competitor_out_of_stock_status then 0.15 else 0
  let promo := -drivers.competitor_promo_intensity * 0.5
  let price_factor := -price_gap / 100 * 0.10
  pyRound 3 (price_factor + oos + promo)

/-- The `contributions` dictionary built by `MockDataService.get_forecast`
(fixed keys "Social & Trend", "Marketing Spend", "Trade Promo",
"Digital Shelf", "Weather", "Competitor", in insertion order). -/
structure Contributions where
  social_trend : ℚ
  marketing_spend : ℚ
  trade_promo : ℚ
  digital_shelf : ℚ
  weather : ℚ
  competitor : ℚ
deriving DecidableEq

/-- `sum(contributions.values())`. -/
def Contributions.total (c : Contributions) : ℚ :=
  c.social_trend + c.marketing_spend + c.trade_promo
    + c.digital_shelf + c.weather + c.competitor

/-- `ForecastResult`.  `sensed_demand` is `round(...)` with no digit
argument, hence an integer; the `reasoning` string (built by
`_generate_reasoning`, referenced by no claim) is omitted. -/
structure ForecastResult where
  sku_id : String
  customer_id : String
  location_id : String
  as_of_date : String
  baseline_forecast : ℚ
  sensed_demand : ℤ
  boost_percent : ℚ
  confidence_score : ℚ
  driver_contributions : Contributions
  approval_status : String
  planner_override : Option ℚ

/-- The fresh `ForecastResult` computed by `MockDataService.get_forecast`
on a cache miss (lines 240–275 of `mock_data.py`). -/
def mkForecast (sku_id customer_id location_id : String)
    (as_of_date : PyDate) : ForecastResult :=
  let driver_data := get_demand_drivers sku_id customer_id location_id as_of_date
  let drivers := driver_data.drivers
  let scenario := driver_data.scenario
  let contributions : Contributions :=
    { social_trend := calc_social_boost drivers
      marketing_spend := calc_marketing_boost drivers
      trade_promo := calc_promo_boost drivers
      digital_shelf := calc_shelf_boost drivers
      weather := calc_weather_boost drivers sku_id
      competitor := calc_competitor_boost drivers }
  let total_boost := contributions.total
  let baseline := drivers.statistical_baseline_forecast
  let sensed_demand := pyRoundInt (baseline * (1 + total_boost))
  let confidence : ℚ :=
    if scenario = "BASE" then 0.85 else if scenario = "BULLISH" then 0.75 else 0.70
  { sku_id := sku_id, customer_id := customer_id, location_id := location_id
    as_of_date := as_of_date.isoformat
    baseline_forecast := baseline
    sensed_demand := sensed_demand
    boost_percent := pyRound 1 (total_boost * 100)
    confidence_score := confidence
    driver_contributions := contributions
    approval_status := "pending"
    planner_override := none }

/-- Cache key: `(sku_id, customer_id, location_id, date string)`. -/
abbrev CacheKey := String × String × String × String

/-- The `_forecast_cache` of a `MockDataService` instance, as an
association list (most recently inserted first); each key appears at
most once, as in the Python dict. -/
abbrev CacheState := List (CacheKey × ForecastResult)

/-- Dictionary lookup in the cache. -/
def cacheLookup (s : CacheState) (k : CacheKey) : Option ForecastResult :=
  match s with
  | [] => none
  | (k', r) :: rest => if k' = k then some r else cacheLookup rest k

/-- In-place mutation of the cached entry at key `k` (Python mutates the
shared `ForecastResult` object). -/
def cacheUpdate (s : CacheState) (k : CacheKey) (r : ForecastResult) : CacheState :=
  match s with
  | [] => []
  | (k', r') :: rest =>
    if k' = k then (k', r) :: rest else (k', r') :: cacheUpdate rest k r

/-- `MockDataService.get_forecast`: returns the cached result for the
context if present, otherwise computes a fresh one and caches it. -/
def get_forecast (s : CacheState) (sku_id customer_id location_id : String)
    (as_of_date : PyDate) : ForecastResult × CacheState :=
  let cache_key : CacheKey := (sku_id, customer_id, location_id, as_of_date.isoformat)
  match cacheLookup s cache_key with
  | some r => (r, s)
  | none =>
    let result := mkForecast sku_id customer_id location_id as_of_date
    (result, (cache_key, result) :: s)

/-- The mutation `update_forecast_approval` performs on the cached
result: `result.approval_status = status`, then
`result.planner_override = override_value` when an override is
supplied. -/
def applyApproval (result : ForecastResult) (status : String)
    (override_value : Option ℚ) : ForecastResult :=
  let result := { result with approval_status := status }
  match override_value with
  | some v => { result with planner_override := some v }
  | none => result

/-- `MockDataService.update_forecast_approval`: sets `approval_status`
(and `planner_override` when an override is supplied) on the cached
result, or raises `ValueError` when the context was never fetched. -/
def update_forecast_approval (s : CacheState)
    (sku_id customer_id location_id as_of_date status : String)
    (override_value : Option ℚ) : Except String (ForecastResult × CacheState) :=
  let cache_key : CacheKey := (sku_id, customer_id, location_id, as_of_date)
  match cacheLookup s cache_key with
  | some result =>
    let result := applyApproval result status override_value
    .ok (result, cacheUpdate s cache_key result)
  | none => .error "Forecast not found"

/-- One client-visible operation on a `MockDataService` instance. -/
inductive MockOp where
  | getForecast (sku_id customer_id location_id : String) (as_of_date : PyDate)
  | updateApproval (sku_id customer_id location_id as_of_date status : String)
      (override_value : Option ℚ)

/-- Effect of one operation on the cache (a failed update leaves the
cache unchanged, as the Python exception propagates before any write). -/
def MockOp.run (s : CacheState) : MockOp → CacheState
  | .getForecast sku c l d => (get_forecast s sku c l d).2
  | .updateApproval sku c l d st ov =>
    match update_forecast_approval s sku c l d st ov with
    | .ok (_, s') => s'
    | .error _ => s

/-- Cache reached from a fresh `MockDataService()` by a sequence of
operations. -/
def runOps (ops : List MockOp) : CacheState :=
  ops.foldl MockOp.run []

/-- The spec's scenario classifier, stated in its own words: "bullish"
if `day_of_month % 3 == 0` or the day is Saturday/Sunday, else
"bearish" if `day_of_month % 5 == 0`, else "base" (Saturday/Sunday are
CPython weekdays 5 and 6). -/
def scenarioSpec (d : PyDate) : String :=
  if d.day % 3 = 0 ∨ d.weekday = 5 ∨ d.weekday = 6 then "bullish"
  else if d.day % 5 = 0 then "bearish"
  else "base"

/-- The sensed-demand equation: `sensed_demand` is the Python `round` of
`baseline_forecast * (1 + total boost)`, the total boost being the sum
of the six stored driver-category contributions. -/
def sensedDemandEq (r : ForecastResult) : Prop :=
  r.sensed_demand = pyRoundInt (r.baseline_forecast * (1 + r.driver_contributions.total))

/-! ## `research/tools.py` — fetch_and_insert_demand_data

The ambient state the Python function reads (today's date, environment
variables, the random row returned by the warehouse query, the error
list returned by the insert) is passed as explicit inputs, and every
warehouse interaction the function performs is recorded in an action
trace.  `insert_rows_json` is the streaming *insert* API; an update
action is included in the action vocabulary only so that its absence
from every trace is expressible. -/

/-- A BigQuery cell value. -/
inductive BQValue where
  | num (q : ℚ)
  | str (s : String)
  | boolean (b : Bool)
  | null
deriving DecidableEq

/-- A row keyed by column name. -/
abbrev BQRow := List (String × BQValue)

/-- `PRODUCT_ID` (tools.py line 28). -/
def PRODUCT_ID : String := "PONDS"

/-- `CUSTOMER_ID` (tools.py line 29). -/
def CUSTOMER_ID : String := "BLINKIT"

/-- `LOCATION_ID` (tools.py line 30). -/
def LOCATION_ID : String := "Bangalore"

/-- `FEATURE_COLUMNS` (tools.py lines 33–63). -/
def FEATURE_COLUMNS : List String :=
  ["consensus_baseline_forecast", "real_time_sales_velocity",
   "ingredient_trend_velocity", "brand_sentiment_score",
   "viral_hashtag_volume", "influencer_mention_count",
   "performance_marketing_spend", "campaign_ctr", "video_completion_rate",
   "retargeting_pool_size", "on_platform_discount_depth",
   "bundle_offer_active_status", "flash_sale_participation",
   "cart_level_offer_conversion", "share_of_search_keyword_rank",
   "pdp_views", "buy_box_win_rate", "rating_and_review_velocity",
   "max_temperature_forecast", "humidity_index", "uv_index",
   "air_quality_index_aqi", "competitor_price_gap",
   "competitor_out_of_stock_status", "competitor_promo_intensity",
   "competitor_new_launch_signal", "inventory_days_on_hand",
   "distributor_open_orders", "stock_out_incidents"]

/-- The `new_row` dictionary built at tools.py lines 128–138: the three
fixed identifiers, the requested date, and the feature values copied
from the random row. -/
structure NewRow where
  product_id : String
  customer_id : String
  location_id : String
  date_consensus : String
  features : List (String × BQValue)
deriving DecidableEq

/-- One interaction with the BigQuery warehouse. -/
inductive WarehouseAction where
  | mkClient
  | runQuery
  | insertRows (table : String) (row : NewRow)
  | updateRows
deriving DecidableEq

/-- The environment variables read by the function (`None` when
unset). -/
structure FetchEnv where
  bq_compute_project_id : Option String
  bq_dataset_id : Option String
  bq_table_id : Option String

/-- Python truthiness test `not x` for `os.getenv` results: `None` and
the empty string are falsy. -/
def isFalsyOpt : Option String → Bool
  | none => true
  | some s => s = ""

/-- The dictionary returned by `fetch_and_insert_demand_data`; keys a
given return path omits are `none`. -/
structure FetchResult where
  success : Bool
  error : Option String := none
  message : Option String := none
  product_id : Option String := none
  customer_id : Option String := none
  location_id : Option String := none
  date : Option String := none
  features : Option BQRow := none
  bq_errors : Option (List String) := none

/-- `fetch_and_insert_demand_data` (tools.py lines 66–176).
`queryResult` is the (at most one) row of the `LIMIT 1` random-row
query; `insertErrors` the error list of `insert_rows_json`.  The
`tool_context` state write and the logging calls have no bearing on the
result or the warehouse and are omitted. -/
def fetch_and_insert_demand_data (target_date : String) (today : PyDate)
    (env : FetchEnv) (queryResult : Option BQRow) (insertErrors : List String) :
    FetchResult × List WarehouseAction :=
  match parseIsoDate target_date with
  | none =>
    ({ success := false
       error := some ("Invalid date format: " ++ target_date ++ ". Use YYYY-MM-DD.") }, [])
  | some parsed_date =>
    if today.ltb parsed_date then
      ({ success := false
         error := some ("Cannot insert data for future date " ++ target_date
           ++ ". Today is " ++ today.isoformat ++ ".") }, [])
    else if isFalsyOpt env.bq_compute_project_id || isFalsyOpt env.bq_dataset_id then
      ({ success := false
         error := some "BQ_COMPUTE_PROJECT_ID or BQ_DATASET_ID not configured." }, [])
    else
      let project_id := env.bq_compute_project_id.getD ""
      let dataset_id := env.bq_dataset_id.getD ""
      let table_id := env.bq_table_id.getD "demand_driver_values_dataset"
      let table_ref := project_id ++ "." ++ dataset_id ++ "." ++ table_id
      match queryResult with
      | none =>
        ({ success := false, error := some "No existing data in BigQuery to copy from." },
         [.mkClient, .runQuery])
      | some random_row =>
        let new_row : NewRow :=
          { product_id := PRODUCT_ID
            customer_id := CUSTOMER_ID
            location_id := LOCATION_ID
            date_consensus := target_date
            features := FEATURE_COLUMNS.filterMap
              (fun col => (random_row.lookup col).map (fun v => (col, v))) }
        if insertErrors ≠ [] then
          ({ success := false, error := some "BigQuery insert failed"
             bq_errors := some insertErrors },
           [.mkClient, .runQuery, .insertRows table_ref new_row])
        else
          ({ success := true
             message := some ("Successfully inserted demand driver data for " ++ PRODUCT_ID
               ++ " at " ++ LOCATION_ID ++ " (customer: " ++ CUSTOMER_ID ++ ") on " ++ target_date)
             product_id := some PRODUCT_ID
             customer_id := some CUSTOMER_ID
             location_id := some LOCATION_ID
             date := some target_date
             features := some random_row },
           [.mkClient, .runQuery, .insertRows table_ref new_row])

/-! ## `frontend/services/api_client.py` — AgentEngineClient

`get_gcp_access_token` returns the stripped stdout of
`gcloud auth print-access-token`, or `""` on failure; the entry points
are modelled by the token they would receive and the first externally
visible step they take (early credential-error return versus issuing
the HTTP request), and by the parsers they run over the
newline-delimited body, one `StreamLine` per line: `blank` for an empty
line, `malformed` for a line `json.loads` rejects, and `event` for a
decoded event whose absent dictionary keys are `none`. -/

/-- First externally visible step of an entry point. -/
inductive EntryAction where
  | credError (msg : String)
  | sendRequest
deriving DecidableEq

/-- The credential error returned/yielded by the entry points. -/
def credErrorMsg : String := "Error: Could not get GCP access token. Run `gcloud auth login`"

/-- `query_stream` (api_client.py lines 326–332): it yields the
credential error and returns iff `"Bearer " + token` ends with a space
(a stripped token never ends with a space, so this is exactly the empty
token); otherwise it proceeds to the POST. -/
def query_stream_gate (token : String) : EntryAction :=
  if !(strEndsWith ("Bearer " ++ token) " ") then .sendRequest
  else .credError credErrorMsg

/-- `query_rich` (api_client.py lines 389–392): the credential error is
returned when the Authorization header is falsy or equals `"Bearer "`;
otherwise it proceeds to the POST. -/
def query_rich_gate (token : String) : EntryAction :=
  if ("Bearer " ++ token) = "" ∨ ("Bearer " ++ token) = "Bearer " then .credError credErrorMsg
  else .sendRequest

/-- The async `query` (api_client.py lines 589–623): it builds the
headers and posts immediately — there is no credential check. -/
def query_async_gate (_token : String) : EntryAction :=
  .sendRequest

/-- `inline_data` dictionary. -/
structure InlineData where
  mime_type : Option String := none
  data : Option String := none
deriving DecidableEq

/-- `function_call` dictionary (only its `name` is read). -/
structure FunctionCall where
  name : Option String := none
deriving DecidableEq

/-- `executable_code` dictionary. -/
structure ExecutableCode where
  language : Option String := none
  code : Option String := none
deriving DecidableEq

/-- One entry of `code_execution_result.output_files`. -/
structure OutputFile where
  name : Option String := none
  mime_type : Option String := none
  mimeType : Option String := none
  data : Option String := none
deriving DecidableEq

/-- `code_execution_result` dictionary. -/
structure CodeExecResult where
  output_files : Option (List OutputFile) := none
  output : Option String := none
deriving DecidableEq

/-- One entry of `content.parts`. -/
structure Part where
  text : Option String := none
  inline_data : Option InlineData := none
  code_execution_result : Option CodeExecResult := none
  function_call : Option FunctionCall := none
  executable_code : Option ExecutableCode := none
deriving DecidableEq

/-- `fileData` dictionary. -/
structure FileData where
  fileUri : Option String := none
  mimeType : Option String := none
deriving DecidableEq

/-- An `artifact_delta` value that is a dictionary. -/
structure ArtifactData where
  inline_data : Option InlineData := none
  parts : Option (List Part) := none
  fileData : Option FileData := none
deriving DecidableEq

/-- An `artifact_delta` value: a dictionary, or any other JSON value
(e.g. an integer artifact version) with its Python truthiness. -/
inductive ArtifactValue where
  | obj (d : ArtifactData)
  | scalar (truthy : Bool)
deriving DecidableEq

/-- Python truthiness of an artifact value (a dictionary is truthy iff
non-empty). -/
def ArtifactValue.isTruthy : ArtifactValue → Bool
  | .obj d => d.inline_data.isSome || d.parts.isSome || d.fileData.isSome
  | .scalar b => b

/-- The `actions` dictionary of an event.  Its `state_delta` key only
writes `result.metadata`, which no claim mentions, and is omitted. -/
structure EventActions where
  artifact_delta : Option (List (String × ArtifactValue)) := none
deriving DecidableEq

/-- The `content` dictionary of an event. -/
structure Content where
  parts : Option (List Part) := none
deriving DecidableEq

/-- One decoded event of the newline-delimited response.
`model_version` / `usage_metadata` only write `result.metadata` and are
omitted. -/
structure Event where
  actions : Option EventActions := none
  content : Option Content := none
deriving DecidableEq

/-- One line of the response body. -/
inductive StreamLine where
  | blank
  | malformed
  | event (e : Event)
deriving DecidableEq

/-- One element of `result.images`: base64 data with its mime type, and
the artifact/file name when one was recorded. -/
structure ImageEntry where
  mime_type : String
  data : String
  name : Option String := none
deriving DecidableEq

/-- One `result.artifacts` entry's `data` payload. -/
inductive ArtifactPayload where
  | textContent (content : String)
  | fileRef (uri mime : String)
  | fileBlob (mime data : String)
  | raw (v : ArtifactValue)
  | codeBlock (language code : String)
deriving DecidableEq

/-- The `AgentResponse` accumulated by `query_rich` (its `metadata`
dictionary, referenced by no claim, is omitted; each `artifacts` entry
is the pair of its `name` and `data` keys). -/
structure AgentResponse where
  text : String := ""
  images : List ImageEntry := []
  artifacts : List (String × ArtifactPayload) := []
  tool_calls : List String := []
deriving DecidableEq

/-- The image appended for an `inline_data` whose mime type starts with
`"image/"` (api_client.py lines 441–451 and analogous sites); `none`
when the mime check fails.  The `isinstance(data, bytes)` re-encoding
branch is identity on the string-valued data modelled here. -/
def inlineImage (name : Option String) (inline : InlineData) : Option ImageEntry :=
  if strStartsWith (inline.mime_type.getD "") "image/" then
    some { mime_type := inline.mime_type.getD "", data := inline.data.getD "", name := name }
  else none

/-- One step of the loop over an artifact's `parts`
(api_client.py lines 455–475); the boolean is `image_extracted`. -/
def artifactPartsStep (artifact_name : String) (acc : AgentResponse × Bool)
    (p : Part) : AgentResponse × Bool :=
  let acc := match p.inline_data with
    | some inline =>
      match inlineImage (some artifact_name) inline with
      | some img => ({ acc.1 with images := acc.1.images ++ [img] }, true)
      | none => acc
    | none => acc
  match p.text with
  | some t => ({ acc.1 with artifacts := acc.1.artifacts ++ [(artifact_name, .textContent t)] }, acc.2)
  | none => acc

/-- The `isinstance(artifact_data, dict)` body of the `artifact_delta`
loop (api_client.py lines 437–483): direct `inline_data`, ADK `parts`
content, `fileData`; the boolean is `image_extracted`. -/
def extractArtifactDict (r : AgentResponse) (artifact_name : String)
    (d : ArtifactData) : AgentResponse × Bool :=
  let acc : AgentResponse × Bool := match d.inline_data with
    | some inline =>
      match inlineImage (some artifact_name) inline with
      | some img => ({ r with images := r.images ++ [img] }, true)
      | none => (r, false)
    | none => (r, false)
  let acc := match d.parts with
    | some parts => parts.foldl (artifactPartsStep artifact_name) acc
    | none => acc
  match d.fileData with
  | some fd =>
    ({ acc.1 with artifacts := acc.1.artifacts
        ++ [(artifact_name, .fileRef (fd.fileUri.getD "") (fd.mimeType.getD ""))] }, acc.2)
  | none => acc

/-- Processing of one `artifact_delta` item
(api_client.py lines 434–490): the dictionary body when the value is a
dictionary, then the non-image fallback. -/
def extractArtifact (r : AgentResponse) (artifact_name : String)
    (v : ArtifactValue) : AgentResponse :=
  let acc : AgentResponse × Bool := match v with
    | .obj d => extractArtifactDict r artifact_name d
    | .scalar _ => (r, false)
  if !acc.2 && v.isTruthy then
    { acc.1 with artifacts := acc.1.artifacts ++ [(artifact_name, .raw v)] }
  else acc.1

/-- Python `pattern in s` substring test. -/
def containsSubstr (s pattern : String) : Bool :=
  containsSub s.toList pattern.toList

/-- Split a list at the first occurrence of `c`. -/
def splitFirstAux (c : Char) : List Char → Option (List Char × List Char)
  | [] => none
  | x :: xs =>
    if x = c then some ([], xs)
    else (splitFirstAux c xs).map (fun p => (x :: p.1, p.2))

/-- Python `s.split(c, 1)` when it yields two pieces; `none` when `c`
does not occur (one piece). -/
def splitFirst (s : String) (c : Char) : Option (String × String) :=
  (splitFirstAux c s.toList).map (fun p => (String.mk p.1, String.mk p.2))

/-- One step of the loop over `code_execution_result.output_files`
(api_client.py lines 515–532). -/
def outputFileStep (r : AgentResponse) (file_info : OutputFile) : AgentResponse :=
  let mime := file_info.mime_type.getD (file_info.mimeType.getD "")
  if strStartsWith mime "image/" then
    { r with images := r.images
        ++ [{ mime_type := mime, data := file_info.data.getD ""
              name := some (file_info.name.getD "chart") }] }
  else
    { r with artifacts := r.artifacts
        ++ [(file_info.name.getD "file", .fileBlob mime (file_info.data.getD ""))] }

/-- Handling of one `code_execution_result` part
(api_client.py lines 509–556): image/file output files, then the
`output` string (a data-URL image, or short text stored as the
`code_output` artifact). -/
def processCodeExec (r : AgentResponse) (exec_result : CodeExecResult) : AgentResponse :=
  let r := match exec_result.output_files with
    | some files => if files ≠ [] then files.foldl outputFileStep r else r
    | none => r
  match exec_result.output with
  | some output =>
    if output ≠ "" then
      if containsSubstr output "data:image" then
        match splitFirst output ',' with
        | some p =>
          let mime_part := ((p.1.splitOn ";").headD "").replace "data:" ""
          { r with images := r.images ++ [{ mime_type := mime_part, data := p.2 }] }
        | none => r
      else if output.length > 0 ∧ output.length < 10000 then
        { r with artifacts := r.artifacts ++ [("code_output", .textContent output)] }
      else r
    else r
  | none => r

/-- Handling of one content part by `query_rich`
(api_client.py lines 494–569): text overwrite, inline image, code
execution result, function call, executable code. -/
def processPart (r : AgentResponse) (part : Part) : AgentResponse :=
  let r := match part.text with
    | some t => { r with text := t }
    | none => r
  let r := match part.inline_data with
    | some inline =>
      match inlineImage none inline with
      | some img => { r with images := r.images ++ [img] }
      | none => r
    | none => r
  let r := match part.code_execution_result with
    | some exec_result => processCodeExec r exec_result
    | none => r
  let r := match part.function_call with
    | some fc => { r with tool_calls := r.tool_calls ++ [fc.name.getD "unknown"] }
    | none => r
  match part.executable_code with
  | some code =>
    match code.code with
    | some c =>
      { r with artifacts := r.artifacts
          ++ [("executed_code", .codeBlock (code.language.getD "python") c)] }
    | none => r
  | none => r

/-- Handling of one response line by `query_rich`
(api_client.py lines 418–578): empty lines and JSON-decode failures are
skipped, then the `actions.artifact_delta` block, then the
`content.parts` block. -/
def processLine (r : AgentResponse) : StreamLine → AgentResponse
  | .blank => r
  | .malformed => r
  | .event e =>
    let r := match e.actions with
      | some actions =>
        match actions.artifact_delta with
        | some delta =>
          if delta ≠ [] then delta.foldl (fun r p => extractArtifact r p.1 p.2) r else r
        | none => r
      | none => r
    match e.content with
    | some content =>
      match content.parts with
      | some parts => parts.foldl processPart r
      | none => r
    | none => r

/-- The parse loop of `query_rich` over the split response body. -/
def query_rich_parse (lines : List StreamLine) : AgentResponse :=
  lines.foldl processLine {}

/-- Handling of one content part by the async `query`
(api_client.py lines 639–648): last text wins, inline images
accumulate. -/
def processPartAsync (acc : String × List ImageEntry) (part : Part) :
    String × List ImageEntry :=
  let full_text := match part.text with
    | some t => t
    | none => acc.1
  let images := match part.inline_data with
    | some inline =>
      match inlineImage none inline with
      | some img => acc.2 ++ [img]
      | none => acc.2
    | none => acc.2
  (full_text, images)

/-- Handling of one response line by the async `query`
(api_client.py lines 634–650). -/
def processLineAsync (acc : String × List ImageEntry) :
    StreamLine → String × List ImageEntry
  | .blank => acc
  | .malformed => acc
  | .event e =>
    match e.content with
    | some content =>
      match content.parts with
      | some parts => parts.foldl processPartAsync acc
      | none => acc
    | none => acc

/-- The parse loop of the async `query` over the split response body:
the accumulated `full_text` and `images`. -/
def query_async_parse (lines : List StreamLine) : String × List ImageEntry :=
  lines.foldl processLineAsync ("", [])

/-- The text parts a line contributes, in order. -/
def lineTexts : StreamLine → List String
  | .event e =>
    match e.content with
    | some content =>
      match content.parts with
      | some parts => parts.filterMap (fun p => p.text)
      | none => []
    | none => []
  | _ => []

/-- All text parts of a stream, in order. -/
def streamTexts (lines : List StreamLine) : List String :=
  lines.flatMap lineTexts

/-- The images one artifact part contributes. -/
def partImagesArtifact (artifact_name : String) (p : Part) : List ImageEntry :=
  match p.inline_data with
  | some inline => (inlineImage (some artifact_name) inline).toList
  | none => []

/-- The images one `artifact_delta` item contributes. -/
def artifactImages (artifact_name : String) : ArtifactValue → List ImageEntry
  | .obj d =>
    (match d.inline_data with
      | some inline => (inlineImage (some artifact_name) inline).toList
      | none => [])
    ++ (match d.parts with
      | some parts => parts.flatMap (partImagesArtifact artifact_name)
      | none => [])
  | .scalar _ => []

/-- The images one `code_execution_result` contributes. -/
def codeExecImages (exec_result : CodeExecResult) : List ImageEntry :=
  (match exec_result.output_files with
    | some files =>
      files.flatMap (fun file_info =>
        let mime := file_info.mime_type.getD (file_info.mimeType.getD "")
        if strStartsWith mime "image/" then
          [{ mime_type := mime, data := file_info.data.getD ""
             name := some (file_info.name.getD "chart") }]
        else [])
    | none => [])
  ++ (match exec_result.output with
    | some output =>
      if output ≠ "" then
        if containsSubstr output "data:image" then
          match splitFirst output ',' with
          | some p => [{ mime_type := ((p.1.splitOn ";").headD "").replace "data:" "", data := p.2 }]
          | none => []
        else []
      else []
    | none => [])

/-- The images one content part contributes in `query_rich`. -/
def partImages (p : Part) : List ImageEntry :=
  (match p.inline_data with
    | some inline => (inlineImage none inline).toList
    | none => [])
  ++ (match p.code_execution_result with
    | some exec_result => codeExecImages exec_result
    | none => [])

/-- The images one line contributes in `query_rich`. -/
def lineImages : StreamLine → List ImageEntry
  | .event e =>
    (match e.actions with
      | some actions =>
        match actions.artifact_delta with
        | some delta => delta.flatMap (fun p => artifactImages p.1 p.2)
        | none => []
      | none => [])
    ++ (match e.content with
      | some content =>
        match content.parts with
        | some parts => parts.flatMap partImages
        | none => []
      | none => [])
  | _ => []

/-- The stream line of claim C8: a decoded event whose
`actions.artifact_delta` holds one artifact whose `parts[0].inline_data`
is an image. -/
def artifactImageLine (artifact_name mime dat : String) : StreamLine :=
  .event
    { actions := some
        { artifact_delta := some
            [(artifact_name, .obj
              { parts := some [{ inline_data := some { mime_type := some mime, data := some dat } }] })] }
      content := none }

/-- A fresh forecast satisfies the sensed-demand equation by
construction. -/
lemma sensedDemandEq_mkForecast (a b c : String) (d : PyDate) :
    sensedDemandEq (mkForecast a b c d) := rfl

/-- `update_forecast_approval`'s mutation touches only `approval_status`
and (when an override is supplied) `planner_override`. -/
lemma applyApproval_eq (r : ForecastResult) (st : String) (ov : Option ℚ) :
    applyApproval r st ov =
      { r with approval_status := st
               planner_override := match ov with | some v => some v | none => r.planner_override } := by
  cases ov <;> rfl

/-- A successful cache lookup comes from an entry of the cache. -/
lemma cacheLookup_mem {s : CacheState} {k : CacheKey} {r : ForecastResult}
    (h : cacheLookup s k = some r) : (k, r) ∈ s := by
  induction s with
  | nil => simp [cacheLookup] at h
  | cons p rest ih =>
    obtain ⟨k', r'⟩ := p
    rw [cacheLookup] at h
    by_cases hk : k' = k
    · simp [hk] at h
      subst hk; subst h
      exact List.mem_cons_self _ _
    · simp [hk] at h
      exact List.mem_cons_of_mem _ (ih h)

/-- Every entry of an updated cache is the written record or an entry of
the original cache. -/
lemma mem_cacheUpdate {s : CacheState} {k : CacheKey} {r : ForecastResult}
    {p : CacheKey × ForecastResult} (h : p ∈ cacheUpdate s k r) :
    p.2 = r ∨ p ∈ s := by
  induction s with
  | nil => simp [cacheUpdate] at h
  | cons q rest ih =>
    obtain ⟨k', r'⟩ := q
    rw [cacheUpdate] at h
    by_cases hk : k' = k
    · simp [hk] at h
      rcases h with h | h
      · left; rw [h]
      · right; exact List.mem_cons_of_mem _ h
    · simp [hk] at h
      rcases h with h | h
      · right; simp [h]
      · rcases ih h with h2 | h2
        · left; exact h2
        · right; exact List.mem_cons_of_mem _ h2

/-- Updating a present key makes the written record the one found by a
subsequent lookup. -/
lemma cacheLookup_cacheUpdate {s : CacheState} {k : CacheKey}
    {r₀ r : ForecastResult} (h : cacheLookup s k = some r₀) :
    cacheLookup (cacheUpdate s k r) k = some r := by
  induction s with
  | nil => simp [cacheLookup] at h
  | cons q rest ih =>
    obtain ⟨k', r'⟩ := q
    rw [cacheLookup] at h
    by_cases hk : k' = k
    · simp [cacheUpdate, hk, cacheLookup]
    · simp [hk] at h
      simp [cacheUpdate, hk, cacheLookup, ih h]

/-- After `get_forecast`, the requested context is cached. -/
lemma cacheLookup_get_forecast (s : CacheState) (sku c l : String) (d : PyDate) :
    ∃ r₀, cacheLookup (get_forecast s sku c l d).2 (sku, c, l, d.isoformat) = some r₀ := by
  rw [get_forecast]
  cases h : cacheLookup s (sku, c, l, d.isoformat) with
  | some r => rw [h]; exact ⟨r, rfl⟩
  | none => exact ⟨mkForecast sku c l d, by simp [cacheLookup]⟩

/-- Characterisation of a successful `update_forecast_approval`. -/
lemma update_ok {s : CacheState} {sku c l d st : String} {ov : Option ℚ}
    {r : ForecastResult} {s' : CacheState}
    (h : update_forecast_approval s sku c l d st ov = .ok (r, s')) :
    ∃ r₀, cacheLookup s (sku, c, l, d) = some r₀ ∧
      r = applyApproval r₀ st ov ∧ s' = cacheUpdate s (sku, c, l, d) r := by
  rw [update_forecast_approval] at h
  cases hl : cacheLookup s (sku, c, l, d) with
  | some r₀ =>
    rw [hl] at h
    simp at h
    refine ⟨r₀, rfl, h.1.symm, ?_⟩
    rw [← h.1]; exact h.2.symm
  | none => rw [hl] at h; simp at h

/-- Every operation preserves the sensed-demand equation for all cached
entries. -/
lemma step_preserves {s : CacheState}
    (h : ∀ p ∈ s, sensedDemandEq p.2) (op : MockOp) :
    ∀ p ∈ op.run s, sensedDemandEq p.2 := by
  cases op with
  | getForecast sku c l d =>
    intro p hp
    rw [MockOp.run, get_forecast] at hp
    cases hl : cacheLookup s (sku, c, l, d.isoformat) with
    | some r => rw [hl] at hp; exact h p hp
    | none =>
      rw [hl] at hp
      simp at hp
      rcases hp with hp | hp
      · rw [hp]; exact sensedDemandEq_mkForecast _ _ _ _
      · exact h p hp
  | updateApproval sku c l d st ov =>
    intro p hp
    rw [MockOp.run] at hp
    cases hu : update_forecast_approval s sku c l d st ov with
    | error e => rw [hu] at hp; exact h p hp
    | ok pr =>
      obtain ⟨r, s'⟩ := pr
      rw [hu] at hp
      obtain ⟨r₀, hl, hr, hs⟩ := update_ok hu
      rw [hs] at hp
      rcases mem_cacheUpdate hp with h2 | h2
      · have h0 : sensedDemandEq r₀ := h _ (cacheLookup_mem hl)
        rw [h2, hr, applyApproval_eq]
        exact h0
      · exact h p h2

/-- The invariant holds for every cache reachable from a fresh
service. -/
lemma runOps_inv (ops : List MockOp) :
    ∀ p ∈ runOps ops, sensedDemandEq p.2 := by
  have inv : ∀ (l : List MockOp) (s : CacheState), (∀ p ∈ s, sensedDemandEq p.2) →
      ∀ p ∈ l.foldl MockOp.run s, sensedDemandEq p.2 := by
    intro l
    induction l with
    | nil => intro s h; simpa using h
    | cons op rest ih => intro s h; exact ih _ (step_preserves h op)
  exact inv ops [] (by simp)

lemma foldl_proj_append {α β γ : Type} (step : β → α → β) (proj : β → List γ)
    (g : α → List γ) (hstep : ∀ b a, proj (step b a) = proj b ++ g a) :
    ∀ (l : List α) (b : β), proj (l.foldl step b) = proj b ++ l.flatMap g := by
  intro l
  induction l with
  | nil => intro b; simp
  | cons x xs ih =>
    intro b
    rw [List.foldl_cons, ih, hstep]
    simp

lemma foldl_proj_eq {α β γ : Type} (step : β → α → β) (proj : β → γ)
    (hstep : ∀ b a, proj (step b a) = proj b) :
    ∀ (l : List α) (b : β), proj (l.foldl step b) = proj b := by
  intro l
  induction l with
  | nil => intro b; rfl
  | cons x xs ih => intro b; rw [List.foldl_cons, ih, hstep]

lemma artifactPartsStep_images (nm : String) (acc : AgentResponse × Bool) (p : Part) :
    (artifactPartsStep nm acc p).1.images = acc.1.images ++ partImagesArtifact nm p := by
  rw [artifactPartsStep, partImagesArtifact]
  cases hid : p.inline_data with
  | none => cases ht : p.text <;> simp [ht]
  | some inline =>
    cases himg : inlineImage (some nm) inline with
    | none => cases ht : p.text <;> simp [himg, ht, Option.toList]
    | some img => cases ht : p.text <;> simp [himg, ht, Option.toList]

lemma artifactPartsStep_text (nm : String) (acc : AgentResponse × Bool) (p : Part) :
    (artifactPartsStep nm acc p).1.text = acc.1.text := by
  rw [artifactPartsStep]
  cases hid : p.inline_data with
  | none => cases ht : p.text <;> simp [ht]
  | some inline =>
    cases himg : inlineImage (some nm) inline with
    | none => cases ht : p.text <;> simp [himg, ht]
    | some img => cases ht : p.text <;> simp [himg, ht]

lemma extractArtifactDict_images (r : AgentResponse) (nm : String) (d : ArtifactData) :
    (extractArtifactDict r nm d).1.images
      = r.images ++ artifactImages nm (.obj d) := by
  obtain ⟨idata, dparts, dfile⟩ := d
  rw [extractArtifactDict, artifactImages]
  have hfold : ∀ (parts : List Part) (acc : AgentResponse × Bool),
      ((parts.foldl (artifactPartsStep nm) acc).1.images)
        = acc.1.images ++ parts.flatMap (partImagesArtifact nm) :=
    fun parts acc => foldl_proj_append (artifactPartsStep nm)
      (fun a => a.1.images) (partImagesArtifact nm)
      (fun b a => artifactPartsStep_images nm b a) parts acc
  cases idata with
  | none =>
    cases dparts with
    | none => cases dfile <;> simp
    | some parts => cases dfile <;> simp [hfold]
  | some inline =>
    cases himg : inlineImage (some nm) inline with
    | none =>
      cases dparts with
      | none => cases dfile <;> simp [himg, Option.toList]
      | some parts => cases dfile <;> simp [himg, hfold, Option.toList]
    | some img =>
      cases dparts with
      | none => cases dfile <;> simp [himg, Option.toList]
      | some parts => cases dfile <;> simp [himg, hfold, Option.toList]

lemma extractArtifact_images (r : AgentResponse) (nm : String) (v : ArtifactValue) :
    (extractArtifact r nm v).images = r.images ++ artifactImages nm v := by
  rw [extractArtifact.eq_def]
  cases v with
  | scalar b =>
    by_cases hb : b = true <;> simp [hb, ArtifactValue.isTruthy, artifactImages]
  | obj d =>
    by_cases h2 : (extractArtifactDict r nm d).2 = true
      <;> by_cases ht : (ArtifactValue.obj d).isTruthy = true
      <;> simp [h2, ht, extractArtifactDict_images]

lemma outputFileStep_images (r : AgentResponse) (f : OutputFile) :
    (outputFileStep r f).images = r.images
      ++ (if strStartsWith (f.mime_type.getD (f.mimeType.getD "")) "image/" then
            [{ mime_type := f.mime_type.getD (f.mimeType.getD "")
               data := f.data.getD "", name := some (f.name.getD "chart") }]
          else []) := by
  rw [outputFileStep]
  by_cases h : strStartsWith (f.mime_type.getD (f.mimeType.getD "")) "image/" <;> simp [h]

lemma outputFileStep_text (r : AgentResponse) (f : OutputFile) :
    (outputFileStep r f).text = r.text := by
  rw [outputFileStep]
  by_cases h : strStartsWith (f.mime_type.getD (f.mimeType.getD "")) "image/" <;> simp [h]

lemma processCodeExec_images (r : AgentResponse) (er : CodeExecResult) :
    (processCodeExec r er).images = r.images ++ codeExecImages er := by
  obtain ⟨files?, output?⟩ := er
  rw [processCodeExec, codeExecImages]
  have hfold : ∀ (files : List OutputFile) (r : AgentResponse),
      ((files.foldl outputFileStep r).images)
        = r.images ++ files.flatMap (fun f =>
            if strStartsWith (f.mime_type.getD (f.mimeType.getD "")) "image/" then
              [{ mime_type := f.mime_type.getD (f.mimeType.getD "")
                 data := f.data.getD "", name := some (f.name.getD "chart") }]
            else []) :=
    fun files r => foldl_proj_append outputFileStep (fun a => a.images) _
      (fun b a => outputFileStep_images b a) files r
  cases files? with
  | none =>
    cases output? with
    | none => simp
    | some output =>
      by_cases ho : output = ""
      · simp [ho]
      · by_cases hc : containsSubstr output "data:image"
        · cases hs : splitFirst output ',' with
          | none => simp [ho, hc, hs]
          | some p => simp [ho, hc, hs]
        · by_cases hlen : output.length > 0 ∧ output.length < 10000
          · simp [ho, hc, hlen]
          · simp [ho, hc, hlen]
  | some files =>
    by_cases hf : files = []
    · subst hf
      cases output? with
      | none => simp
      | some output =>
        by_cases ho : output = ""
        · simp [ho]
        · by_cases hc : containsSubstr output "data:image"
          · cases hs : splitFirst output ',' with
            | none => simp [ho, hc, hs]
            | some p => simp [ho, hc, hs]
          · by_cases hlen : output.length > 0 ∧ output.length < 10000
            · simp [ho, hc, hlen]
            · simp [ho, hc, hlen]
    · cases output? with
      | none => simp [hf, hfold]
      | some output =>
        by_cases ho : output = ""
        · simp [hf, ho, hfold]
        · by_cases hc : containsSubstr output "data:image"
          · cases hs : splitFirst output ',' with
            | none => simp [hf, ho, hc, hs, hfold]
            | some p => simp [hf, ho, hc, hs, hfold]
          · by_cases hlen : output.length > 0 ∧ output.length < 10000
            · simp [hf, ho, hc, hlen, hfold]
            · simp [hf, ho, hc, hlen, hfold]

lemma processCodeExec_text (r : AgentResponse) (er : CodeExecResult) :
    (processCodeExec r er).text = r.text := by
  obtain ⟨files?, output?⟩ := er
  rw [processCodeExec]
  have hfold : ∀ (files : List OutputFile) (r : AgentResponse),
      ((files.foldl outputFileStep r).text) = r.text :=
    fun files r => foldl_proj_eq outputFileStep (fun a => a.text)
      (fun b a => outputFileStep_text b a) files r
  cases files? with
  | none =>
    cases output? with
    | none => simp
    | some output =>
      by_cases ho : output = ""
      · simp [ho]
      · by_cases hc : containsSubstr output "data:image"
        · cases hs : splitFirst output ',' with
          | none => simp [ho, hc, hs]
          | some p => simp [ho, hc, hs]
        · by_cases hlen : output.length > 0 ∧ output.length < 10000
          · simp [ho, hc, hlen]
          · simp [ho, hc, hlen]
  | some files =>
    by_cases hf : files = [] <;>
    · cases output? with
      | none => simp [hf, hfold]
      | some output =>
        by_cases ho : output = ""
        · simp [hf, ho, hfold]
        · by_cases hc : containsSubstr output "data:image"
          · cases hs : splitFirst output ',' with
            | none => simp [hf, ho, hc, hs, hfold]
            | some p => simp [hf, ho, hc, hs, hfold]
          · by_cases hlen : output.length > 0 ∧ output.length < 10000
            · simp [hf, ho, hc, hlen, hfold]
            · simp [hf, ho, hc, hlen, hfold]

lemma processPart_images (r : AgentResponse) (p : Part) :
    (processPart r p).images = r.images ++ partImages p := by
  obtain ⟨ptext, pinline, pcer, pfc, pec⟩ := p
  rw [processPart, partImages]
  cases ptext <;>
  · cases pinline with
    | none =>
      cases pcer with
      | none =>
        cases pfc <;>
        · cases pec with
          | none => simp
          | some code => cases hcc : code.code <;> simp [hcc]
      | some er =>
        cases pfc <;>
        · cases pec with
          | none => simp [processCodeExec_images]
          | some code => cases hcc : code.code <;> simp [processCodeExec_images, hcc]
    | some inline =>
      cases himg : inlineImage none inline with
      | none =>
        cases pcer with
        | none =>
          cases pfc <;>
          · cases pec with
            | none => simp [himg, Option.toList]
            | some code => cases hcc : code.code <;> simp [himg, Option.toList, hcc]
        | some er =>
          cases pfc <;>
          · cases pec with
            | none => simp [himg, Option.toList, processCodeExec_images]
            | some code => cases hcc : code.code <;> simp [himg, Option.toList, processCodeExec_images, hcc]
      | some img =>
        cases pcer with
        | none =>
          cases pfc <;>
          · cases pec with
            | none => simp [himg, Option.toList]
            | some code => cases hcc : code.code <;> simp [himg, Option.toList, hcc]
        | some er =>
          cases pfc <;>
          · cases pec with
            | none => simp [himg, Option.toList, processCodeExec_images]
            | some code => cases hcc : code.code <;> simp [himg, Option.toList, processCodeExec_images, hcc]

lemma processPart_text (r : AgentResponse) (p : Part) :
    (processPart r p).text = (p.text).getD r.text := by
  obtain ⟨ptext, pinline, pcer, pfc, pec⟩ := p
  rw [processPart]
  cases ptext <;>
  · cases pinline with
    | none =>
      cases pcer with
      | none =>
        cases pfc <;>
        · cases pec with
          | none => simp
          | some code => cases hcc : code.code <;> simp [hcc]
      | some er =>
        cases pfc <;>
        · cases pec with
          | none => simp [processCodeExec_text]
          | some code => cases hcc : code.code <;> simp [processCodeExec_text, hcc]
    | some inline =>
      cases himg : inlineImage none inline with
      | none =>
        cases pcer with
        | none =>
          cases pfc <;>
          · cases pec with
            | none => simp [himg]
            | some code => cases hcc : code.code <;> simp [himg, hcc]
        | some er =>
          cases pfc <;>
          · cases pec with
            | none => simp [himg, processCodeExec_text]
            | some code => cases hcc : code.code <;> simp [himg, processCodeExec_text, hcc]
      | some img =>
        cases pcer with
        | none =>
          cases pfc <;>
          · cases pec with
            | none => simp [himg]
            | some code => cases hcc : code.code <;> simp [himg, hcc]
        | some er =>
          cases pfc <;>
          · cases pec with
            | none => simp [himg, processCodeExec_text]
            | some code => cases hcc : code.code <;> simp [himg, processCodeExec_text, hcc]

lemma getLastD_append (a b : List String) (d : String) :
    (a ++ b).getLastD d = b.getLastD (a.getLastD d) := by
  induction a generalizing d with
  | nil => rfl
  | cons x xs ih => rw [List.cons_append, List.getLastD_cons, ih, List.getLastD_cons]

lemma foldl_text_getLastD {β : Type} (step : β → Part → β) (tx : β → String)
    (hstep : ∀ b p, tx (step b p) = (p.text).getD (tx b)) :
    ∀ (parts : List Part) (b : β),
      tx (parts.foldl step b) = (parts.filterMap (fun p => p.text)).getLastD (tx b) := by
  intro parts
  induction parts with
  | nil => intro b; rfl
  | cons p ps ih =>
    intro b
    rw [List.foldl_cons, ih, hstep]
    cases hp : p.text with
    | none => simp [List.filterMap_cons, hp]
    | some t =>
      simp only [List.filterMap_cons, hp, Option.getD_some]
      rw [List.getLastD_cons]

lemma processPartAsync_text (acc : String × List ImageEntry) (p : Part) :
    (processPartAsync acc p).1 = (p.text).getD acc.1 := by
  rw [processPartAsync]
  cases hp : p.text <;> simp [hp]

lemma extractArtifactDict_text (r : AgentResponse) (nm : String) (d : ArtifactData) :
    (extractArtifactDict r nm d).1.text = r.text := by
  obtain ⟨idata, dparts, dfile⟩ := d
  rw [extractArtifactDict]
  have hfold : ∀ (parts : List Part) (acc : AgentResponse × Bool),
      ((parts.foldl (artifactPartsStep nm) acc).1.text) = acc.1.text :=
    fun parts acc => foldl_proj_eq (artifactPartsStep nm) (fun a => a.1.text)
      (fun b a => artifactPartsStep_text nm b a) parts acc
  cases idata with
  | none =>
    cases dparts with
    | none => cases dfile <;> simp
    | some parts => cases dfile <;> simp [hfold]
  | some inline =>
    cases himg : inlineImage (some nm) inline with
    | none =>
      cases dparts with
      | none => cases dfile <;> simp [himg]
      | some parts => cases dfile <;> simp [himg, hfold]
    | some img =>
      cases dparts with
      | none => cases dfile <;> simp [himg]
      | some parts => cases dfile <;> simp [himg, hfold]

lemma extractArtifact_text (r : AgentResponse) (nm : String) (v : ArtifactValue) :
    (extractArtifact r nm v).text = r.text := by
  rw [extractArtifact.eq_def]
  cases v with
  | scalar b => by_cases hb : b = true <;> simp [hb, ArtifactValue.isTruthy]
  | obj d =>
    by_cases h2 : (extractArtifactDict r nm d).2 = true
      <;> by_cases ht : (ArtifactValue.obj d).isTruthy = true
      <;> simp [h2, ht, extractArtifactDict_text]

lemma processLine_images (r : AgentResponse) (l : StreamLine) :
    (processLine r l).images = r.images ++ lineImages l := by
  cases l with
  | blank => simp [processLine, lineImages]
  | malformed => simp [processLine, lineImages]
  | event e =>
    obtain ⟨eactions, econtent⟩ := e
    rw [processLine, lineImages]
    have hdelta : ∀ (delta : List (String × ArtifactValue)) (r : AgentResponse),
        ((delta.foldl (fun r p => extractArtifact r p.1 p.2) r).images)
          = r.images ++ delta.flatMap (fun p => artifactImages p.1 p.2) :=
      fun delta r => foldl_proj_append _ (fun a => a.images) _
        (fun b a => extractArtifact_images b a.1 a.2) delta r
    have hparts : ∀ (parts : List Part) (r : AgentResponse),
        ((parts.foldl processPart r).images) = r.images ++ parts.flatMap partImages :=
      fun parts r => foldl_proj_append processPart (fun a => a.images) partImages
        (fun b a => processPart_images b a) parts r
    cases eactions with
    | none =>
      cases econtent with
      | none => simp
      | some c =>
        obtain ⟨cparts⟩ := c
        cases cparts <;> simp [hparts]
    | some a =>
      obtain ⟨delta?⟩ := a
      cases delta? with
      | none =>
        cases econtent with
        | none => simp
        | some c =>
          obtain ⟨cparts⟩ := c
          cases cparts <;> simp [hparts]
      | some delta =>
        by_cases hd : delta = [] <;>
        · cases econtent with
          | none => simp [hd, hdelta]
          | some c =>
            obtain ⟨cparts⟩ := c
            cases cparts <;> simp [hd, hdelta, hparts]

lemma processLine_text (r : AgentResponse) (l : StreamLine) :
    (processLine r l).text = (lineTexts l).getLastD r.text := by
  cases l with
  | blank => simp [processLine, lineTexts]
  | malformed => simp [processLine, lineTexts]
  | event e =>
    obtain ⟨eactions, econtent⟩ := e
    rw [processLine, lineTexts]
    have hdelta : ∀ (delta : List (String × ArtifactValue)) (r : AgentResponse),
        ((delta.foldl (fun r p => extractArtifact r p.1 p.2) r).text) = r.text :=
      fun delta r => foldl_proj_eq _ (fun a => a.text)
        (fun b a => extractArtifact_text b a.1 a.2) delta r
    have hparts : ∀ (parts : List Part) (r : AgentResponse),
        ((parts.foldl processPart r).text)
          = (parts.filterMap (fun p => p.text)).getLastD r.text :=
      fun parts r => foldl_text_getLastD processPart (fun a => a.text)
        (fun b a => processPart_text b a) parts r
    cases eactions with
    | none =>
      cases econtent with
      | none => simp
      | some c =>
        obtain ⟨cparts⟩ := c
        cases cparts <;> simp [hparts]
    | some a =>
      obtain ⟨delta?⟩ := a
      cases delta? with
      | none =>
        cases econtent with
        | none => simp
        | some c =>
          obtain ⟨cparts⟩ := c
          cases cparts <;> simp [hparts]
      | some delta =>
        by_cases hd : delta = [] <;>
        · cases econtent with
          | none => simp [hd, hdelta]
          | some c =>
            obtain ⟨cparts⟩ := c
            cases cparts <;> simp [hd, hdelta, hparts]

lemma processLineAsync_text (acc : String × List ImageEntry) (l : StreamLine) :
    (processLineAsync acc l).1 = (lineTexts l).getLastD acc.1 := by
  cases l with
  | blank => simp [processLineAsync, lineTexts]
  | malformed => simp [processLineAsync, lineTexts]
  | event e =>
    obtain ⟨eactions, econtent⟩ := e
    rw [processLineAsync, lineTexts]
    have hparts : ∀ (parts : List Part) (acc : String × List ImageEntry),
        ((parts.foldl processPartAsync acc).1)
          = (parts.filterMap (fun p => p.text)).getLastD acc.1 :=
      fun parts acc => foldl_text_getLastD processPartAsync (fun a => a.1)
        (fun b a => processPartAsync_text b a) parts acc
    cases econtent with
    | none => simp
    | some c =>
      obtain ⟨cparts⟩ := c
      cases cparts <;> simp [hparts]

lemma foldl_lines_text {β : Type} (step : β → StreamLine → β) (tx : β → String)
    (hstep : ∀ b l, tx (step b l) = (lineTexts l).getLastD (tx b)) :
    ∀ (lines : List StreamLine) (b : β),
      tx (lines.foldl step b) = (streamTexts lines).getLastD (tx b) := by
  intro lines
  induction lines with
  | nil => intro b; rfl
  | cons l ls ih =>
    intro b
    rw [List.foldl_cons, ih, hstep, streamTexts, streamTexts]
    simp only [List.flatMap_cons]
    rw [getLastD_append]

/-- C1: every `ForecastResult` produced by `MockDataService.get_forecast`
(for any sku, customer, location and date, from any reachable cache)
satisfies `sensed_demand = round(baseline_forecast * (1 + total_boost))`
with `total_boost` the sum of the six driver-category contributions;
every cached result satisfies it; and `update_forecast_approval`
preserves it because a successful update rewrites only
`approval_status` and `planner_override`. -/
theorem claim_C1_sensed_demand_invariant :
    (∀ (ops : List MockOp) (sku c l : String) (d : PyDate),
      sensedDemandEq (get_forecast (runOps ops) sku c l d).1)
    ∧ (∀ (ops : List MockOp), ∀ p ∈ runOps ops, sensedDemandEq p.2)
    ∧ (∀ (s : CacheState) (sku c l d st : String) (ov : Option ℚ)
        (r : ForecastResult) (s' : CacheState),
        update_forecast_approval s sku c l d st ov = .ok (r, s') →
        ∃ r₀, cacheLookup s (sku, c, l, d) = some r₀
          ∧ r = { r₀ with
                  approval_status := st
                  planner_override := match ov with | some v => some v | none => r₀.planner_override }
          ∧ (sensedDemandEq r₀ → sensedDemandEq r)) := by
  refine ⟨?_, ?_, ?_⟩
  · intro ops sku c l d
    rw [get_forecast]
    cases hl : cacheLookup (runOps ops) (sku, c, l, d.isoformat) with
    | some r => exact runOps_inv ops _ (cacheLookup_mem hl)
    | none => exact sensedDemandEq_mkForecast _ _ _ _
  · intro ops p hp
    exact runOps_inv ops p hp
  · intro s sku c l d st ov r s' h
    obtain ⟨r₀, hl, hr, _⟩ := update_ok h
    subst hr
    rw [applyApproval_eq]
    refine ⟨r₀, hl, rfl, ?_⟩
    intro h0
    exact h0

/-- Witness for C1: a concrete fetched forecast satisfies the
sensed-demand equation, and a concrete successful approval update is
exactly the two-field rewrite of the cached record. -/
theorem claim_C1_sensed_demand_invariant_witness :
    sensedDemandEq (mkForecast "PONDS_SUPER_LIGHT_GEL_100G" "BLINKIT" "BANGALORE" ⟨2025, 12, 8⟩)
    ∧ (∃ r₀, cacheLookup
          [(("a", "b", "c", "d"), mkForecast "a" "b" "c" ⟨2025, 12, 8⟩)] ("a", "b", "c", "d")
          = some r₀
        ∧ applyApproval (mkForecast "a" "b" "c" ⟨2025, 12, 8⟩) "approved" (some 100)
          = { r₀ with
              approval_status := "approved"
              planner_override := match (some (100 : ℚ)) with
                | some v => some v
                | none => r₀.planner_override }
        ∧ (sensedDemandEq r₀ →
            sensedDemandEq (applyApproval (mkForecast "a" "b" "c" ⟨2025, 12, 8⟩) "approved" (some 100)))) :=
  ⟨claim_C1_sensed_demand_invariant.2.1
      [.getForecast "PONDS_SUPER_LIGHT_GEL_100G" "BLINKIT" "BANGALORE" ⟨2025, 12, 8⟩]
      (("PONDS_SUPER_LIGHT_GEL_100G", "BLINKIT", "BANGALORE", "2025-12-08"),
        mkForecast "PONDS_SUPER_LIGHT_GEL_100G" "BLINKIT" "BANGALORE" ⟨2025, 12, 8⟩)
      (by rw [runOps]; exact List.mem_singleton.mpr rfl),
    claim_C1_sensed_demand_invariant.2.2
      [(("a", "b", "c", "d"), mkForecast "a" "b" "c" ⟨2025, 12, 8⟩)]
      "a" "b" "c" "d" "approved" (some 100)
      (applyApproval (mkForecast "a" "b" "c" ⟨2025, 12, 8⟩) "approved" (some 100))
      (cacheUpdate [(("a", "b", "c", "d"), mkForecast "a" "b" "c" ⟨2025, 12, 8⟩)]
        ("a", "b", "c", "d")
        (applyApproval (mkForecast "a" "b" "c" ⟨2025, 12, 8⟩) "approved" (some 100)))
      rfl⟩

/-- C2 counterexample: `update_forecast_approval` re-opens freely — a
forecast whose cached status is "approved" is moved to "rejected" by a
later call, so the approved/rejected statuses are not terminal. -/
theorem claim_C2_counterexample :
    (cacheLookup (runOps
        [.getForecast "PONDS_SUPER_LIGHT_GEL_100G" "BLINKIT" "BANGALORE" ⟨2025, 12, 8⟩,
         .updateApproval "PONDS_SUPER_LIGHT_GEL_100G" "BLINKIT" "BANGALORE" "2025-12-08" "approved" none])
        ("PONDS_SUPER_LIGHT_GEL_100G", "BLINKIT", "BANGALORE", "2025-12-08")).map
        (fun r => r.approval_status) = some "approved"
    ∧ (cacheLookup (runOps
        [.getForecast "PONDS_SUPER_LIGHT_GEL_100G" "BLINKIT" "BANGALORE" ⟨2025, 12, 8⟩,
         .updateApproval "PONDS_SUPER_LIGHT_GEL_100G" "BLINKIT" "BANGALORE" "2025-12-08" "approved" none,
         .updateApproval "PONDS_SUPER_LIGHT_GEL_100G" "BLINKIT" "BANGALORE" "2025-12-08" "rejected" none])
        ("PONDS_SUPER_LIGHT_GEL_100G", "BLINKIT", "BANGALORE", "2025-12-08")).map
        (fun r => r.approval_status) = some "rejected" := by
  constructor <;> rfl

/-- C2 amended: `update_forecast_approval` sets `approval_status` to the
supplied status unconditionally whenever the context is cached — every
transition between statuses is possible, including changing an
already-approved or already-rejected forecast. -/
theorem claim_C2_approval_unconditional :
    ∀ (s : CacheState) (sku c l d st : String) (ov : Option ℚ) (r₀ : ForecastResult),
      cacheLookup s (sku, c, l, d) = some r₀ →
      ∃ s', update_forecast_approval s sku c l d st ov = .ok (applyApproval r₀ st ov, s')
        ∧ (applyApproval r₀ st ov).approval_status = st := by
  intro s sku c l d st ov r₀ h
  exact ⟨cacheUpdate s (sku, c, l, d) (applyApproval r₀ st ov),
    by simp [update_forecast_approval, h], by cases ov <;> rfl⟩

/-- Witness for the amended C2: a cached forecast already marked
"approved" is nevertheless moved to "rejected" by a further update. -/
theorem claim_C2_approval_unconditional_witness :
    ∃ s', update_forecast_approval
        [(("a", "b", "c", "d"), applyApproval (mkForecast "a" "b" "c" ⟨2025, 12, 8⟩) "approved" none)]
        "a" "b" "c" "d" "rejected" none
        = .ok (applyApproval
            (applyApproval (mkForecast "a" "b" "c" ⟨2025, 12, 8⟩) "approved" none) "rejected" none, s')
      ∧ (applyApproval
          (applyApproval (mkForecast "a" "b" "c" ⟨2025, 12, 8⟩) "approved" none) "rejected" none).approval_status
        = "rejected" :=
  claim_C2_approval_unconditional
    [(("a", "b", "c", "d"), applyApproval (mkForecast "a" "b" "c" ⟨2025, 12, 8⟩) "approved" none)]
    "a" "b" "c" "d" "rejected" none
    (applyApproval (mkForecast "a" "b" "c" ⟨2025, 12, 8⟩) "approved" none) rfl

/-- C5 counterexample: on 2025-12-09 the day of the month is 9 and
`9 % 3 == 0`, so the classifier returns "bullish", not "base" as the
claim's third example asserts. -/
theorem claim_C5_counterexample :
    scenarioOf ⟨2025, 12, 9⟩ = "bullish" ∧ scenarioOf ⟨2025, 12, 9⟩ ≠ "base" := by
  decide

/-- C5 amended: the scenario classifier is the pure function of
`day % 3`, the weekday, and `day % 5` stated by the spec;
2025-12-06 (Saturday) gives "bullish", 2025-12-10 (Wednesday,
`10 % 5 == 0`) gives "bearish", 2025-12-09 (Tuesday) gives "bullish"
because `9 % 3 == 0`, and 2025-12-08 (Monday, no trigger) gives
"base". -/
theorem claim_C5_scenario_classifier :
    (∀ d : PyDate, scenarioOf d = scenarioSpec d)
    ∧ scenarioOf ⟨2025, 12, 6⟩ = "bullish"
    ∧ PyDate.weekday ⟨2025, 12, 6⟩ = 5
    ∧ scenarioOf ⟨2025, 12, 10⟩ = "bearish"
    ∧ PyDate.weekday ⟨2025, 12, 10⟩ = 2
    ∧ scenarioOf ⟨2025, 12, 9⟩ = "bullish"
    ∧ PyDate.weekday ⟨2025, 12, 9⟩ = 1
    ∧ scenarioOf ⟨2025, 12, 8⟩ = "base" :=
  ⟨fun _ => rfl, by decide, by decide, by decide, by decide, by decide, by decide, by decide⟩

/-- C6: for the "base" driver template, the Social & Trend contribution
equals `round(0.4*0.15 + 0.3*(0.72-0.7) + 0.09*min(1400/3000, 1), 3)`
and that value is exactly 0.108. -/
theorem claim_C6_social_boost_base :
    calc_social_boost baseTemplate
      = pyRound 3 (0.4 * 0.15 + 0.3 * (0.72 - 0.7) + 0.09 * min ((1400 : ℚ) / 3000) 1)
    ∧ calc_social_boost baseTemplate = 0.108 := by
  constructor <;>
    norm_num [calc_social_boost, baseTemplate, pyRound, pyRoundInt, round_eq, min_def]

/-- C9: updating a context that was never fetched raises the not-found
`ValueError`; fetching a context and then approving it with an override
succeeds, leaving the cached result with `approval_status = "approved"`
and `planner_override` equal to the supplied value. -/
theorem claim_C9_update_not_found_then_success :
    (∀ (s : CacheState) (sku c l d st : String) (ov : Option ℚ),
      cacheLookup s (sku, c, l, d) = none →
      update_forecast_approval s sku c l d st ov = .error "Forecast not found")
    ∧ (∀ (s : CacheState) (sku c l : String) (pd : PyDate) (ov : ℚ),
      ∃ r s'', update_forecast_approval (get_forecast s sku c l pd).2 sku c l
          pd.isoformat "approved" (some ov) = .ok (r, s'')
        ∧ r.approval_status = "approved" ∧ r.planner_override = some ov
        ∧ cacheLookup s'' (sku, c, l, pd.isoformat) = some r) := by
  constructor
  · intro s sku c l d st ov h
    simp [update_forecast_approval, h]
  · intro s sku c l pd ov
    obtain ⟨r₀, hl⟩ := cacheLookup_get_forecast s sku c l pd
    refine ⟨applyApproval r₀ "approved" (some ov),
      cacheUpdate (get_forecast s sku c l pd).2 (sku, c, l, pd.isoformat)
        (applyApproval r₀ "approved" (some ov)), ?_, rfl, rfl, ?_⟩
    · simp [update_forecast_approval, hl]
    · exact cacheLookup_cacheUpdate hl

/-- Witness for C9: on a fresh service the update raises the not-found
error for a concrete never-fetched context. -/
theorem claim_C9_update_not_found_then_success_witness :
    update_forecast_approval [] "a" "b" "c" "d" "approved" none
      = .error "Forecast not found" :=
  claim_C9_update_not_found_then_success.1 [] "a" "b" "c" "d" "approved" none rfl

/-- C3: when the target date is malformed (not a valid `YYYY-MM-DD`
date) or strictly later than today, `fetch_and_insert_demand_data`
returns a failure result carrying an error and performs no warehouse
interaction at all — in particular no client construction, no query and
no insert. -/
theorem claim_C3_validation_before_warehouse :
    ∀ (target_date : String) (today : PyDate) (env : FetchEnv)
      (queryResult : Option BQRow) (insertErrors : List String),
      (parseIsoDate target_date = none
        ∨ ∃ d, parseIsoDate target_date = some d ∧ today.ltb d) →
      (fetch_and_insert_demand_data target_date today env queryResult insertErrors).1.success = false
      ∧ (fetch_and_insert_demand_data target_date today env queryResult insertErrors).1.error.isSome
      ∧ (fetch_and_insert_demand_data target_date today env queryResult insertErrors).2 = [] := by
  intro target today env qr errs h
  rcases h with h | ⟨d, hd, hlt⟩
  · simp [fetch_and_insert_demand_data, h]
  · simp [fetch_and_insert_demand_data, hd, hlt]

/-- Witness for C3: the malformed date "15-12-2025" fails with an error
and an empty warehouse trace. -/
theorem claim_C3_validation_before_warehouse_witness :
    (fetch_and_insert_demand_data "15-12-2025" ⟨2025, 12, 15⟩
        ⟨some "p", some "ds", none⟩ none []).1.success = false
    ∧ (fetch_and_insert_demand_data "15-12-2025" ⟨2025, 12, 15⟩
        ⟨some "p", some "ds", none⟩ none []).1.error.isSome
    ∧ (fetch_and_insert_demand_data "15-12-2025" ⟨2025, 12, 15⟩
        ⟨some "p", some "ds", none⟩ none []).2 = [] :=
  claim_C3_validation_before_warehouse "15-12-2025" ⟨2025, 12, 15⟩
    ⟨some "p", some "ds", none⟩ none [] (Or.inl rfl)

/-- C4: `fetch_and_insert_demand_data` never performs an update, and on
every successful run for a valid past-or-present date the warehouse
trace is exactly one client construction, one random-row query and one
insert of a single row whose identifiers are the fixed constants
"PONDS"/"BLINKIT"/"Bangalore" and whose `date_consensus` is the
requested date, whatever random source row supplied the features. -/
theorem claim_C4_single_insert_fixed_identifiers :
    (∀ (target_date : String) (today : PyDate) (env : FetchEnv)
       (queryResult : Option BQRow) (insertErrors : List String),
      WarehouseAction.updateRows
        ∉ (fetch_and_insert_demand_data target_date today env queryResult insertErrors).2)
    ∧ (∀ (target_date : String) (today : PyDate) (env : FetchEnv)
        (queryResult : Option BQRow) (insertErrors : List String) (d : PyDate),
      parseIsoDate target_date = some d → today.ltb d = false →
      (fetch_and_insert_demand_data target_date today env queryResult insertErrors).1.success = true →
      ∃ table row,
        (fetch_and_insert_demand_data target_date today env queryResult insertErrors).2
          = [.mkClient, .runQuery, .insertRows table row]
        ∧ row.product_id = "PONDS" ∧ row.customer_id = "BLINKIT"
        ∧ row.location_id = "Bangalore" ∧ row.date_consensus = target_date) := by
  constructor
  · intro target today env qr errs
    rw [fetch_and_insert_demand_data]
    cases parseIsoDate target with
    | none => simp
    | some d =>
      by_cases hlt : today.ltb d
      · simp [hlt]
      · simp only [hlt]
        by_cases henv : (isFalsyOpt env.bq_compute_project_id || isFalsyOpt env.bq_dataset_id) = true
        · simp [henv]
        · simp only [Bool.not_eq_true] at henv
          cases qr with
          | none => simp [henv]
          | some row =>
            by_cases herr : errs ≠ []
            · simp [henv, herr]
            · simp [henv, herr]
  · intro target today env qr errs d hd hlt hs
    rw [fetch_and_insert_demand_data, hd] at hs ⊢
    simp only [hlt] at hs ⊢
    by_cases henv : (isFalsyOpt env.bq_compute_project_id || isFalsyOpt env.bq_dataset_id) = true
    · simp [henv] at hs
    · simp only [Bool.not_eq_true] at henv
      cases qr with
      | none => simp [henv] at hs
      | some row =>
        by_cases herr : errs ≠ []
        · simp [henv, herr] at hs
        · exact ⟨env.bq_compute_project_id.getD "" ++ "." ++ env.bq_dataset_id.getD ""
              ++ "." ++ env.bq_table_id.getD "demand_driver_values_dataset",
            { product_id := PRODUCT_ID, customer_id := CUSTOMER_ID
              location_id := LOCATION_ID, date_consensus := target
              features := FEATURE_COLUMNS.filterMap
                (fun col => (row.lookup col).map (fun v => (col, v))) },
            by simp [henv, herr], rfl, rfl, rfl, rfl⟩

/-- Witness for C4: a concrete successful backfill of 2020-01-02 (with
today equal to that date) whose trace is one query and one insert of
the PONDS/BLINKIT/Bangalore row. -/
theorem claim_C4_single_insert_fixed_identifiers_witness :
    WarehouseAction.updateRows
      ∉ (fetch_and_insert_demand_data "2020-01-02" ⟨2020, 1, 2⟩ ⟨some "p", some "ds", none⟩
          (some [("pdp_views", BQValue.num 5)]) []).2
    ∧ ∃ table row,
        (fetch_and_insert_demand_data "2020-01-02" ⟨2020, 1, 2⟩ ⟨some "p", some "ds", none⟩
          (some [("pdp_views", BQValue.num 5)]) []).2
          = [.mkClient, .runQuery, .insertRows table row]
        ∧ row.product_id = "PONDS" ∧ row.customer_id = "BLINKIT"
        ∧ row.location_id = "Bangalore" ∧ row.date_consensus = "2020-01-02" :=
  ⟨claim_C4_single_insert_fixed_identifiers.1 "2020-01-02" ⟨2020, 1, 2⟩
      ⟨some "p", some "ds", none⟩ (some [("pdp_views", BQValue.num 5)]) [],
    claim_C4_single_insert_fixed_identifiers.2 "2020-01-02" ⟨2020, 1, 2⟩
      ⟨some "p", some "ds", none⟩ (some [("pdp_views", BQValue.num 5)]) []
      ⟨2020, 1, 2⟩ (by decide) (by decide) rfl⟩

/-- C7 counterexample: when the gcloud helper yields an empty token, the
async `query` entry point proceeds straight to the network request —
it performs no credential check at all — so the claim fails for the
third entry point. -/
theorem claim_C7_counterexample :
    query_async_gate "" = EntryAction.sendRequest
    ∧ query_async_gate "" ≠ EntryAction.credError credErrorMsg :=
  ⟨rfl, nofun⟩

/-- C7 amended: with an empty token, `query_stream` yields and
`query_rich` returns the explicit credential-error message without
reaching the network request, while the async `query` sends the request
(with the empty bearer header) because it has no credential check. -/
theorem claim_C7_credential_gates :
    query_stream_gate "" = EntryAction.credError credErrorMsg
    ∧ query_rich_gate "" = EntryAction.credError credErrorMsg
    ∧ query_async_gate "" = EntryAction.sendRequest := by
  exact ⟨rfl, rfl, rfl⟩

/-- C8: a line that fails JSON decoding leaves the parser state of
`query_rich` unchanged, so subsequent valid lines are still parsed; the
accumulated images are the per-line contributions in order; and an
`artifact_delta` entry whose `parts[0].inline_data` carries a mime type
starting with "image/" contributes exactly one image entry tagged with
that artifact's name. -/
theorem claim_C8_artifact_image_extraction :
    (∀ r : AgentResponse, processLine r .malformed = r)
    ∧ (∀ lines : List StreamLine, (query_rich_parse lines).images = lines.flatMap lineImages)
    ∧ (∀ nm mime dat : String, strStartsWith mime "image/" = true →
        lineImages (artifactImageLine nm mime dat)
          = [{ mime_type := mime, data := dat, name := some nm }]) := by
  refine ⟨fun r => rfl, ?_, ?_⟩
  · intro lines
    have h := foldl_proj_append processLine (fun a => a.images) lineImages
      (fun b a => processLine_images b a) lines {}
    simpa [query_rich_parse] using h
  · intro nm mime dat hmime
    simp [artifactImageLine, lineImages, artifactImages.eq_def, partImagesArtifact, inlineImage, hmime, Option.toList]

/-- Witness for C8: a concrete PNG artifact line contributes exactly
its one named image entry. -/
theorem claim_C8_artifact_image_extraction_witness :
    lineImages (artifactImageLine "my_chart" "image/png" "QUJD")
      = [{ mime_type := "image/png", data := "QUJD", name := some "my_chart" }] :=
  claim_C8_artifact_image_extraction.2.2 "my_chart" "image/png" "QUJD" (by decide)

/-- C10: both `query_rich` and the async `query` overwrite the
accumulated text with each text part seen, so the returned text equals
the final text part of the stream (the initial empty string when the
stream has none). -/
theorem claim_C10_last_text_wins :
    ∀ lines : List StreamLine,
      (query_rich_parse lines).text = (streamTexts lines).getLastD ""
      ∧ (query_async_parse lines).1 = (streamTexts lines).getLastD "" := by
  intro lines
  constructor
  · have h := foldl_lines_text processLine (fun a => a.text)
      (fun b l => processLine_text b l) lines {}
    simpa [query_rich_parse] using h
  · have h := foldl_lines_text processLineAsync (fun a => a.1)
      (fun b l => processLineAsync_text b l) lines ("", [])
    simpa [query_async_parse] using h

end GCP
